import Mathlib

/-!
Shallow embedding of the `isofs` / `isopod` ISO 9660 codec, reader and writer
(repository `meowesque/isopod`), together with theorems settling the frozen
claims about it.  Byte buffers are modelled as `List Nat` (each element a byte
value), machine integers as `Nat` with explicit `% 2^w` where wrap-around
matters, and fallible operations as `Option`.
-/

/-- The `u32` wrap-around modulus `2^32`. -/
def U32MOD : Nat := 4294967296

/-- The `u8` wrap-around modulus `2^8`. -/
def U8MOD : Nat := 256

/-- Net effect of Rust `out[start..start+src.len()].copy_from_slice(&src)`:
overwrite `src.length` bytes of `out` starting at `start`. -/
def writeRange (out : List Nat) (start : Nat) (src : List Nat) : List Nat :=
  out.take start ++ src ++ out.drop (start + src.length)

/-- Net effect of Rust `out[a..b].fill(0)`. -/
def fillRange (out : List Nat) (a b : Nat) : List Nat :=
  writeRange out a (List.replicate (b - a) 0)

/-- Rust `slice[a..b]` as a list: `b` exclusive. -/
def listSlice (l : List Nat) (a b : Nat) : List Nat :=
  (l.drop a).take (b - a)

/-- Apply a serializer to the sub-slice `out[a..b]` (Rust
`x.serialize_unchecked(&mut out[a..b])`), keeping the rest of `out`.
Faithful when `f` preserves the length of the region. -/
def onRange (out : List Nat) (a b : Nat) (f : List Nat → List Nat) : List Nat :=
  out.take a ++ f (listSlice out a b) ++ out.drop b

/-- Little-endian bytes of a `u16` (`u16::to_le_bytes`). -/
def u16le (v : Nat) : List Nat := [v % 256, v / 256 % 256]

/-- Big-endian bytes of a `u16` (`u16::to_be_bytes`). -/
def u16be (v : Nat) : List Nat := [v / 256 % 256, v % 256]

/-- Little-endian bytes of a `u32` (`u32::to_le_bytes`). -/
def u32le (v : Nat) : List Nat :=
  [v % 256, v / 256 % 256, v / 65536 % 256, v / 16777216 % 256]

/-- Big-endian bytes of a `u32` (`u32::to_be_bytes`). -/
def u32be (v : Nat) : List Nat := (u32le v).reverse

/-- Value of a little-endian byte list (`u32::from_le_bytes` and friends). -/
def leVal : List Nat → Nat
  | [] => 0
  | b :: bs => b % 256 + 256 * leVal bs

/-- Value of a big-endian byte list (`u32::from_be_bytes` and friends). -/
def beVal (l : List Nat) : Nat := leVal l.reverse

/-- Two's-complement byte of an `i8` value (Rust `x as u8`). -/
def i8ToU8 (x : Int) : Nat := (x % 256).toNat

/-- ASCII decimal digits of `n`, most significant first (auxiliary, fuelled). -/
def decDigitsAux : Nat → Nat → List Nat
  | 0, _ => []
  | fuel + 1, n => if n < 10 then [48 + n] else decDigitsAux fuel (n / 10) ++ [48 + n % 10]

/-- ASCII decimal digits of `n`, most significant first. -/
def decDigits (n : Nat) : List Nat := decDigitsAux (n + 1) n

/-- ASCII decimal rendering of `n` left-padded with 48 (ASCII `0`) to width `w`;
models Rust `format!` with a zero-padded minimum width. -/
def asciiPad (w n : Nat) : List Nat :=
  List.replicate (w - (decDigits n).length) 48 ++ decDigits n

namespace Isofs

/-! ## isofs crate: `writer/lba.rs` — the LBA allocator -/

/-- State of `isofs::writer::lba::LbaAllocator` (both fields `u32`). -/
structure LbaAllocator where
  sector_size : Nat
  next_lba : Nat
deriving Repr, DecidableEq

/-- `LbaAllocator::new(sector_size, start_lba)`. -/
def LbaAllocator.new (sector_size start_lba : Nat) : LbaAllocator :=
  { sector_size := sector_size, next_lba := start_lba }

/-- `LbaAllocator::allocate(size)`: `let sectors = (size + sector_size - 1) / sector_size;
next_lba += sectors` with `u32` wrap-around on the additions, returning the
previous cursor.  Returns the pair (allocated LBA, updated allocator). -/
def LbaAllocator.allocate (a : LbaAllocator) (size : Nat) : Nat × LbaAllocator :=
  let lba := a.next_lba
  let sectors := ((size + a.sector_size + U32MOD - 1) % U32MOD) / a.sector_size
  (lba, { a with next_lba := (a.next_lba + sectors) % U32MOD })

end Isofs

namespace Isopod

/-! ## isopod crate: `layout.rs` — the second LBA allocator -/

/-- State of `isopod::layout::LbaAllocator` (`sector_size : u16`,
`next_lba : u32`); the `allocations` map records each `insert`. -/
structure LbaAllocator where
  sector_size : Nat
  next_lba : Nat
  allocations : List (Nat × Nat)
deriving Repr, DecidableEq

/-- `LbaAllocator::new(sector_size, start_lba)`. -/
def LbaAllocator.new (sector_size start_lba : Nat) : LbaAllocator :=
  { sector_size := sector_size, next_lba := start_lba, allocations := [] }

/-- `LbaAllocator::allocate_sectors(size_in_sectors)`. -/
def LbaAllocator.allocate_sectors (a : LbaAllocator) (size_in_sectors : Nat) :
    Nat × LbaAllocator :=
  let allocated_lba := a.next_lba
  (allocated_lba,
    { a with
      allocations := (allocated_lba, size_in_sectors) :: a.allocations
      next_lba := (a.next_lba + size_in_sectors) % U32MOD })

/-- `LbaAllocator::allocate(size)`: `size.div_ceil(sector_size) as u32` then
`allocate_sectors`. -/
def LbaAllocator.allocate (a : LbaAllocator) (size : Nat) : Nat × LbaAllocator :=
  a.allocate_sectors (((size + a.sector_size - 1) / a.sector_size) % U32MOD)

end Isopod

/-- Claim C9: the LBA allocator is monotonic.  For two successive `allocate`
calls returning `lba1` then `lba2`, provided the `u32` arithmetic does not
wrap, `lba2 = lba1 + ceil(size1 / sector_size) ≥ lba1 + ceil(size1 / sector_size)`
and no returned LBA is below the configured start.  Proved for both
implementations: `isofs::writer::lba::LbaAllocator` and
`isopod::layout::LbaAllocator`. -/
theorem lba_allocator_monotonic (ss start size1 size2 : Nat) (hss : 0 < ss)
    (hsz : size1 + ss - 1 < U32MOD)
    (hcur : start + (size1 + ss - 1) / ss < U32MOD) :
    (let r1 := (Isofs.LbaAllocator.new ss start).allocate size1
     let r2 := r1.2.allocate size2
     r1.1 + (size1 + ss - 1) / ss ≤ r2.1 ∧ start ≤ r1.1 ∧ start ≤ r2.1) ∧
    (let q1 := (Isopod.LbaAllocator.new ss start).allocate size1
     let q2 := q1.2.allocate size2
     q1.1 + (size1 + ss - 1) / ss ≤ q2.1 ∧ start ≤ q1.1 ∧ start ≤ q2.1) := by
  have hmod : (size1 + ss + U32MOD - 1) % U32MOD = size1 + ss - 1 := by
    have h1 : size1 + ss + U32MOD - 1 = (size1 + ss - 1) + U32MOD := by omega
    rw [h1, Nat.add_mod_right, Nat.mod_eq_of_lt hsz]
  have hq : (size1 + ss - 1) / ss % U32MOD = (size1 + ss - 1) / ss := by
    apply Nat.mod_eq_of_lt
    exact lt_of_le_of_lt (Nat.div_le_self _ _) hsz
  constructor
  · simp only [Isofs.LbaAllocator.new, Isofs.LbaAllocator.allocate, hmod]
    refine ⟨?_, Nat.le_refl _, ?_⟩ <;>
      simp [Nat.mod_eq_of_lt hcur, Nat.le_add_right]
  · simp only [Isopod.LbaAllocator.new, Isopod.LbaAllocator.allocate,
      Isopod.LbaAllocator.allocate_sectors, hq]
    refine ⟨?_, Nat.le_refl _, ?_⟩ <;>
      simp [Nat.mod_eq_of_lt hcur, Nat.le_add_right]

/-- Witness for C9 at `sector_size = 2048`, `start = 16`, `size1 = 5000`,
`size2 = 100`: the hypotheses hold and the monotonicity conclusion follows. -/
theorem lba_allocator_monotonic_witness :
    0 < 2048 ∧ 5000 + 2048 - 1 < U32MOD ∧ 16 + (5000 + 2048 - 1) / 2048 < U32MOD ∧
    ((let r1 := (Isofs.LbaAllocator.new 2048 16).allocate 5000
      let r2 := r1.2.allocate 100
      r1.1 + (5000 + 2048 - 1) / 2048 ≤ r2.1 ∧ 16 ≤ r1.1 ∧ 16 ≤ r2.1) ∧
     (let q1 := (Isopod.LbaAllocator.new 2048 16).allocate 5000
      let q2 := q1.2.allocate 100
      q1.1 + (5000 + 2048 - 1) / 2048 ≤ q2.1 ∧ 16 ≤ q1.1 ∧ 16 ≤ q2.1)) :=
  ⟨by decide, by decide, by decide,
    lba_allocator_monotonic 2048 16 5000 100 (by decide) (by decide) (by decide)⟩

/-! ## A seekable byte sink (Rust `std::io::Write + Seek` over a file) -/

/-- A seekable sink: current position and the bytes written so far.  Writing
past the end zero-fills the gap, as a file does. -/
structure Sink where
  pos : Nat
  data : List Nat
deriving Repr, DecidableEq

/-- `writer.seek(SeekFrom::Start(p))`. -/
def Sink.seek (s : Sink) (p : Nat) : Sink := { s with pos := p }

/-- Overwrite `src` into `data` at absolute offset `p`, zero-filling any gap
between the current end of `data` and `p`. -/
def overwriteAt (data : List Nat) (p : Nat) (src : List Nat) : List Nat :=
  let padded := data ++ List.replicate (p - data.length) 0
  padded.take p ++ src ++ padded.drop (p + src.length)

/-- `writer.write_all(src)` / a fully-successful `writer.write(src)`. -/
def Sink.writeAll (s : Sink) (src : List Nat) : Sink :=
  { pos := s.pos + src.length, data := overwriteAt s.data s.pos src }

namespace Isofs

/-! ## isofs crate: `writer/sector.rs` — the sector-aligned writer -/

/-- State of `isofs::writer::sector::SectorWriter` with its storage inlined. -/
structure SectorWriter where
  storage : Sink
  sector_ix : Nat
  sector_size : Nat
  bytes_offset : Nat
deriving Repr, DecidableEq

/-- `SectorWriter::new(storage, sector_offset, sector_size)`. -/
def SectorWriter.new (storage : Sink) (sector_offset sector_size : Nat) : SectorWriter :=
  { storage := storage, sector_ix := sector_offset, sector_size := sector_size,
    bytes_offset := 0 }

/-- `SectorWriter::write_aligned(buf)`: first truncate `buf` to at most
`sector_size` bytes (`&buf[..buf.len().min(sector_size)]`); if the truncated
buffer does not fit in the current sector, advance to the next sector and seek
to its start, else seek to the current intra-sector offset; then write the
buffer and advance `bytes_offset`.  Returns `Ok(written)` paired with the new
state (the storage write never fails in this model). -/
def SectorWriter.write_aligned (w0 : SectorWriter) (buf0 : List Nat) :
    Nat × SectorWriter :=
  let buf := buf0.take (min buf0.length w0.sector_size)
  let w :=
    if w0.bytes_offset + buf.length > w0.sector_size then
      { w0 with
        sector_ix := w0.sector_ix + 1
        bytes_offset := 0
        storage := w0.storage.seek ((w0.sector_ix + 1) * w0.sector_size) }
    else
      { w0 with
        storage := w0.storage.seek (w0.sector_ix * w0.sector_size + w0.bytes_offset) }
  let written := buf.length
  (written,
    { w with
      storage := w.storage.writeAll buf
      bytes_offset := w.bytes_offset + written })

end Isofs

/-- Claim C8 counterexample: `write_aligned` on a buffer strictly longer than
the configured sector size is NOT rejected — with `sector_size = 4` and the
5-byte buffer `[7,7,7,7,7]` it returns `Ok(4)` and the first 4 bytes are
written to the sink. -/
theorem write_aligned_oversized_not_rejected :
    (Isofs.SectorWriter.write_aligned
        (Isofs.SectorWriter.new { pos := 0, data := [] } 0 4)
        [7, 7, 7, 7, 7]).1 = 4 ∧
    (Isofs.SectorWriter.write_aligned
        (Isofs.SectorWriter.new { pos := 0, data := [] } 0 4)
        [7, 7, 7, 7, 7]).2.storage.data = [7, 7, 7, 7] := by
  constructor <;> decide

/-- Claim C8 (amended): a buffer strictly longer than the configured sector
size is truncated to the sector size; `write_aligned` succeeds, returns the
sector size as the written count, and writes exactly the first `sector_size`
bytes of the buffer to the sink (shown here for a fresh sector writer over an
empty sink positioned at sector `six`). -/
theorem write_aligned_truncates (six ss : Nat) (buf : List Nat)
    (_hss : 0 < ss) (hlen : ss < buf.length) :
    (Isofs.SectorWriter.write_aligned
        (Isofs.SectorWriter.new { pos := 0, data := [] } six ss) buf).1 = ss ∧
    (Isofs.SectorWriter.write_aligned
        (Isofs.SectorWriter.new { pos := 0, data := [] } six ss) buf).2.storage.data
      = List.replicate (six * ss) 0 ++ buf.take ss := by
  have hmin : min buf.length ss = ss := Nat.min_eq_right (Nat.le_of_lt hlen)
  have htk : (buf.take ss).length = ss := by
    rw [List.length_take]
    omega
  have hcond : ¬ (0 + (buf.take (min buf.length ss)).length > ss) := by
    simp [hmin, htk]
  constructor
  · simp [Isofs.SectorWriter.write_aligned, Isofs.SectorWriter.new, hcond, hmin, htk]
  · simp only [Isofs.SectorWriter.write_aligned, Isofs.SectorWriter.new]
    rw [if_neg hcond]
    simp only [Sink.writeAll, Sink.seek, overwriteAt, hmin, htk]
    simp only [List.nil_append, List.length_replicate, Nat.sub_self,
      List.replicate_zero, List.append_nil, Nat.mul_comm]
    rw [List.take_replicate, List.drop_replicate]
    simp [Nat.mul_comm]

/-- Witness for C8 (amended) at `six = 2`, `ss = 4`, `buf = [9,8,7,6,5]`. -/
theorem write_aligned_truncates_witness :
    0 < 4 ∧ 4 < ([9, 8, 7, 6, 5] : List Nat).length ∧
    ((Isofs.SectorWriter.write_aligned
        (Isofs.SectorWriter.new { pos := 0, data := [] } 2 4) [9, 8, 7, 6, 5]).1 = 4 ∧
     (Isofs.SectorWriter.write_aligned
        (Isofs.SectorWriter.new { pos := 0, data := [] } 2 4) [9, 8, 7, 6, 5]).2.storage.data
       = List.replicate (2 * 4) 0 ++ ([9, 8, 7, 6, 5] : List Nat).take 4) :=
  ⟨by decide, by decide, write_aligned_truncates 2 4 [9, 8, 7, 6, 5] (by decide) (by decide)⟩

namespace Isofs

/-! ## isofs crate: `spec.rs` value types needed by the codec claims -/

/-- `spec::StandardIdentifier`. -/
inductive StandardIdentifier where
  | cd001
  | bea01
  | nsr02
  | nsr03
  | boot2
  | tea01
  | other (v : List Nat)
deriving Repr, DecidableEq

/-- `StandardIdentifier::as_bytes` (5 ASCII bytes). -/
def StandardIdentifier.as_bytes : StandardIdentifier → List Nat
  | .cd001 => [67, 68, 48, 48, 49]
  | .bea01 => [66, 69, 65, 48, 49]
  | .nsr02 => [78, 83, 82, 48, 50]
  | .nsr03 => [78, 83, 82, 48, 51]
  | .boot2 => [66, 79, 79, 84, 50]
  | .tea01 => [84, 69, 65, 48, 49]
  | .other v => v

/-- `spec::VolumeDescriptorType`. -/
inductive VolumeDescriptorType where
  | bootRecord
  | primary
  | supplementary
  | partition
  | other (v : Nat)
  | terminator
deriving Repr, DecidableEq

/-- `Into<u8> for VolumeDescriptorType`. -/
def VolumeDescriptorType.intoU8 : VolumeDescriptorType → Nat
  | .bootRecord => 0
  | .primary => 1
  | .supplementary => 2
  | .partition => 3
  | .other v => v
  | .terminator => 255

/-- `spec::VolumeDescriptorVersion`. -/
inductive VolumeDescriptorVersion where
  | standard
  | other (v : Nat)
deriving Repr, DecidableEq

/-- `Into<u8> for VolumeDescriptorVersion`. -/
def VolumeDescriptorVersion.intoU8 : VolumeDescriptorVersion → Nat
  | .standard => 1
  | .other v => v

/-- `spec::FileStructureVersion`. -/
inductive FileStructureVersion where
  | standard
  | other (v : Nat)
deriving Repr, DecidableEq

/-- `Into<u8> for FileStructureVersion`. -/
def FileStructureVersion.intoU8 : FileStructureVersion → Nat
  | .standard => 1
  | .other v => v

/-- `spec::NumericalDate` (7-byte recording date; `gmt_offset : i8`). -/
structure NumericalDate where
  years_since_1900 : Nat
  month : Nat
  day : Nat
  hour : Nat
  minute : Nat
  second : Nat
  gmt_offset : Int
deriving Repr, DecidableEq

/-- `IsoSerialize::extent` of `NumericalDate`: the sum of its seven one-byte
component extents, i.e. 7 (the `gmt_offset` component is included). -/
def NumericalDate.extent (_ : NumericalDate) : Nat := 7

/-- `IsoSerialize::serialize_unchecked` of `NumericalDate` (serialize.rs lines
496-530): writes `years_since_1900`, `month`, `day`, `hour`, `minute` and
`second` at offsets 0..5 and then returns — the `gmt_offset` byte at offset 6
is never written. -/
def NumericalDate.serialize_unchecked (d : NumericalDate) (out : List Nat) : List Nat :=
  let out := writeRange out 0 [d.years_since_1900]
  let out := writeRange out 1 [d.month]
  let out := writeRange out 2 [d.day]
  let out := writeRange out 3 [d.hour]
  let out := writeRange out 4 [d.minute]
  let out := writeRange out 5 [d.second]
  out

/-- `spec::DigitsDate` (17-byte precise date; numeric fields plus an `i8` GMT
offset). -/
structure DigitsDate where
  year : Nat
  month : Nat
  day : Nat
  hour : Nat
  minute : Nat
  second : Nat
  hundreths : Nat
  gmt_offset : Int
deriving Repr, DecidableEq

/-- `IsoSerialize::serialize_unchecked` of `DigitsDate`: zero-padded ASCII
decimal fields (`format!` widths 4,2,2,2,2,2,2) followed by the GMT-offset
byte at offset 16. -/
def DigitsDate.serialize_unchecked (d : DigitsDate) (out : List Nat) : List Nat :=
  let out := writeRange out 0 (asciiPad 4 d.year)
  let out := writeRange out 4 (asciiPad 2 d.month)
  let out := writeRange out 6 (asciiPad 2 d.day)
  let out := writeRange out 8 (asciiPad 2 d.hour)
  let out := writeRange out 10 (asciiPad 2 d.minute)
  let out := writeRange out 12 (asciiPad 2 d.second)
  let out := writeRange out 14 (asciiPad 2 d.hundreths)
  let out := writeRange out 16 [i8ToU8 d.gmt_offset]
  out

/-- `spec::RootDirectoryRecord`. -/
structure RootDirectoryRecord where
  extent_location : Nat
  data_length : Nat
  recording_date : NumericalDate
  file_flags : Nat
  file_unit_size : Nat
  interleave_gap_size : Nat
  volume_sequence_number : Nat
deriving Repr, DecidableEq

/-- `IsoSerialize::serialize_unchecked` of `RootDirectoryRecord` (34 bytes;
the recording date occupies region 18..25 but its serializer writes only its
first six bytes). -/
def RootDirectoryRecord.serialize_unchecked (r : RootDirectoryRecord)
    (out : List Nat) : List Nat :=
  let out := writeRange out 0 [34]
  let out := writeRange out 1 [0]
  let out := writeRange out 2 (u32le r.extent_location)
  let out := writeRange out 6 (u32be r.extent_location)
  let out := writeRange out 10 (u32le r.data_length)
  let out := writeRange out 14 (u32be r.data_length)
  let out := onRange out 18 25 r.recording_date.serialize_unchecked
  let out := writeRange out 25 [r.file_flags]
  let out := writeRange out 26 [r.file_unit_size]
  let out := writeRange out 27 [r.interleave_gap_size]
  let out := writeRange out 28 (u16le r.volume_sequence_number)
  let out := writeRange out 30 (u16be r.volume_sequence_number)
  let out := writeRange out 32 [0]
  let out := writeRange out 33 [0]
  out

/-- `spec::DirectoryRecord<NoExtension>`: the `file_identifier` is a
`FileIdentifier<32>`, i.e. a 32-byte array. -/
structure DirectoryRecord where
  length : Nat
  extended_attribute_length : Nat
  extent_location : Nat
  data_length : Nat
  recording_date : NumericalDate
  file_flags : Nat
  file_unit_size : Nat
  interleave_gap_size : Nat
  volume_sequence_number : Nat
  file_identifier_length : Nat
  file_identifier : List Nat
deriving Repr, DecidableEq

/-- `IsoSerialize::extent` of `DirectoryRecord` :
`33 + file_identifier.extent() + file_identifier.extent() % 2`, where a
`FileIdentifier<32>`'s extent is the length of its byte array. -/
def DirectoryRecord.extent (r : DirectoryRecord) : Nat :=
  33 + r.file_identifier.length + r.file_identifier.length % 2

/-- `IsoSerialize::serialize_unchecked` of `DirectoryRecord<NoExtension>`
(serialize.rs lines 770-793), statement by statement.  Note that no statement
writes offset 32 (the identifier-length byte) and that the recording-date
serializer writes only bytes 18..24 of its 18..25 region. -/
def DirectoryRecord.serialize_unchecked (r : DirectoryRecord)
    (out : List Nat) : List Nat :=
  let out := writeRange out 0 [r.length % U8MOD]
  let out := writeRange out 1 [r.extended_attribute_length]
  let out := writeRange out 2 (u32le r.extent_location)
  let out := writeRange out 6 (u32be r.extent_location)
  let out := writeRange out 10 (u32le r.data_length)
  let out := writeRange out 14 (u32be r.data_length)
  let out := onRange out 18 25 r.recording_date.serialize_unchecked
  let out := writeRange out 25 [r.file_flags]
  let out := writeRange out 26 [r.file_unit_size]
  let out := writeRange out 27 [r.interleave_gap_size]
  let out := writeRange out 28 (u16le r.volume_sequence_number)
  let out := writeRange out 30 (u16be r.volume_sequence_number)
  let out := writeRange out 33 r.file_identifier
  if r.file_identifier.length % 2 = 1 then
    writeRange out (33 + r.file_identifier.length) [0]
  else
    out

/-- `FileIdentifier::<LENGTH>::from_bytes_truncated` and the analogous
constructors of `ACharacters` / `DCharacters`: truncate or zero-pad `bytes` to
exactly `len` bytes. -/
def fromBytesTruncated (len : Nat) (bytes : List Nat) : List Nat :=
  bytes.take len ++ List.replicate (len - bytes.length) 0

end Isofs

/-- Claim C3 counterexample facts: `NumericalDate::serialize_unchecked` never
writes the `gmt_offset` byte.  Two dates that differ only in their GMT offset
serialize to identical bytes (into a zeroed 7-byte buffer, whose byte 6 stays
0), so no parser can recover the offset and the round-trip
`parse(serialize(v)) = v` claimed for every Spec type fails on
`NumericalDate`. -/
theorem numerical_date_gmt_offset_not_serialized :
    Isofs.NumericalDate.serialize_unchecked
        { years_since_1900 := 124, month := 1, day := 2, hour := 3, minute := 4,
          second := 5, gmt_offset := 0 } (List.replicate 7 0)
      = Isofs.NumericalDate.serialize_unchecked
        { years_since_1900 := 124, month := 1, day := 2, hour := 3, minute := 4,
          second := 5, gmt_offset := 20 } (List.replicate 7 0) ∧
    (Isofs.NumericalDate.serialize_unchecked
        { years_since_1900 := 124, month := 1, day := 2, hour := 3, minute := 4,
          second := 5, gmt_offset := 20 } (List.replicate 7 0)).getD 6 99 = 0 ∧
    ({ years_since_1900 := 124, month := 1, day := 2, hour := 3, minute := 4,
       second := 5, gmt_offset := 0 } : Isofs.NumericalDate)
      ≠ { years_since_1900 := 124, month := 1, day := 2, hour := 3, minute := 4,
          second := 5, gmt_offset := 20 } := by
  refine ⟨by decide, by decide, by decide⟩

/-- A concrete `DirectoryRecord<NoExtension>` used to exercise the serializer:
identifier bytes `AB` zero-padded to the 32-byte `FileIdentifier<32>`,
`file_identifier_length = 2`, recording date with a nonzero GMT offset. -/
def c4Record : Isofs.DirectoryRecord :=
  { length := 65, extended_attribute_length := 0, extent_location := 0x01020304,
    data_length := 0x0A0B0C0D,
    recording_date :=
      { years_since_1900 := 124, month := 1, day := 2, hour := 3, minute := 4,
        second := 5, gmt_offset := 9 },
    file_flags := 0, file_unit_size := 0, interleave_gap_size := 0,
    volume_sequence_number := 1, file_identifier_length := 2,
    file_identifier := Isofs.fromBytesTruncated 32 [65, 66] }

/-- Claim C4, evaluated: serializing `c4Record` into a zeroed buffer lands the
fixed-prefix fields at the claimed offsets (length at 0, dual-endian extent at
2..10, dual-endian data length at 10..18, flags at 25, dual-endian volume
sequence at 28..32, identifier from 33) — but byte 32 is never written: it
stays 0 instead of holding `file_identifier_length = 2`, and byte 24 (the
seventh recording-date byte) stays 0 instead of holding the GMT offset 9. -/
theorem directory_record_serialize_layout :
    (let b := c4Record.serialize_unchecked (List.replicate 65 0)
     b.getD 0 99 = 65 ∧
     b.getD 1 99 = 0 ∧
     listSlice b 2 10 = [4, 3, 2, 1, 1, 2, 3, 4] ∧
     listSlice b 10 18 = [13, 12, 11, 10, 10, 11, 12, 13] ∧
     listSlice b 18 25 = [124, 1, 2, 3, 4, 5, 0] ∧
     b.getD 25 99 = 0 ∧
     b.getD 26 99 = 0 ∧
     b.getD 27 99 = 0 ∧
     listSlice b 28 32 = [1, 0, 0, 1] ∧
     listSlice b 33 35 = [65, 66] ∧
     b.getD 32 99 = 0 ∧
     c4Record.file_identifier_length = 2) := by
  refine ⟨?_, ?_, ?_, ?_, ?_, ?_, ?_, ?_, ?_, ?_, ?_, ?_⟩ <;> decide

namespace Isofs

/-- `spec::PrimaryVolumeDescriptor`.  Fixed-length character fields
(`ACharacters` / `DCharacters`) are their underlying byte arrays. -/
structure PrimaryVolumeDescriptor where
  standard_identifier : StandardIdentifier
  version : VolumeDescriptorVersion
  system_identifier : List Nat
  volume_identifier : List Nat
  volume_space_size : Nat
  volume_set_size : Nat
  volume_sequence_number : Nat
  logical_block_size : Nat
  path_table_size : Nat
  type_l_path_table_location : Nat
  optional_type_l_path_table_location : Nat
  type_m_path_table_location : Nat
  optional_type_m_path_table_location : Nat
  root_directory_record : RootDirectoryRecord
  volume_set_identifier : List Nat
  publisher_identifier : List Nat
  data_preparer_identifier : List Nat
  application_identifier : List Nat
  copyright_file_identifier : List Nat
  abstract_file_identifier : List Nat
  bibliographic_file_identifier : List Nat
  creation_date : DigitsDate
  modification_date : DigitsDate
  expiration_date : DigitsDate
  effective_date : DigitsDate
  file_structure_version : FileStructureVersion
  application_use : List Nat
deriving Repr, DecidableEq

/-- `IsoSerialize::serialize_unchecked` of `PrimaryVolumeDescriptor`
(serialize.rs lines 537-643), statement by statement.  The type-M path-table
locations at 148..156 are written big-endian here. -/
def PrimaryVolumeDescriptor.serialize_unchecked (d : PrimaryVolumeDescriptor)
    (out : List Nat) : List Nat :=
  let out := writeRange out 0 [VolumeDescriptorType.primary.intoU8]
  let out := writeRange out 1 d.standard_identifier.as_bytes
  let out := writeRange out 6 [d.version.intoU8]
  let out := writeRange out 7 [0]
  let out := writeRange out 8 d.system_identifier
  let out := writeRange out 40 d.volume_identifier
  let out := fillRange out 72 80
  let out := writeRange out 80 (u32le d.volume_space_size)
  let out := writeRange out 84 (u32be d.volume_space_size)
  let out := fillRange out 88 120
  let out := writeRange out 120 (u16le d.volume_set_size)
  let out := writeRange out 122 (u16be d.volume_set_size)
  let out := writeRange out 124 (u16le d.volume_sequence_number)
  let out := writeRange out 126 (u16be d.volume_sequence_number)
  let out := writeRange out 128 (u16le d.logical_block_size)
  let out := writeRange out 130 (u16be d.logical_block_size)
  let out := writeRange out 132 (u32le d.path_table_size)
  let out := writeRange out 136 (u32be d.path_table_size)
  let out := writeRange out 140 (u32le d.type_l_path_table_location)
  let out := writeRange out 144 (u32le d.optional_type_l_path_table_location)
  let out := writeRange out 148 (u32be d.type_m_path_table_location)
  let out := writeRange out 152 (u32be d.optional_type_m_path_table_location)
  let out := onRange out 156 190 d.root_directory_record.serialize_unchecked
  let out := writeRange out 190 d.volume_set_identifier
  let out := writeRange out 318 d.publisher_identifier
  let out := writeRange out 446 d.data_preparer_identifier
  let out := writeRange out 574 d.application_identifier
  let out := writeRange out 702 d.copyright_file_identifier
  let out := writeRange out 739 d.abstract_file_identifier
  let out := writeRange out 776 d.bibliographic_file_identifier
  let out := onRange out 813 830 d.creation_date.serialize_unchecked
  let out := onRange out 830 847 d.modification_date.serialize_unchecked
  let out := onRange out 847 864 d.expiration_date.serialize_unchecked
  let out := onRange out 864 881 d.effective_date.serialize_unchecked
  let out := writeRange out 881 [d.file_structure_version.intoU8]
  let out := writeRange out 882 [0]
  let out := writeRange out 883 d.application_use
  let out := fillRange out 1395 2048
  out

/-- `spec::SupplementaryVolumeDescriptor` (A1/D1 character fields as byte
arrays; the `escape_sequences` field is present but the serializer zero-fills
its region). -/
structure SupplementaryVolumeDescriptor where
  standard_identifier : StandardIdentifier
  version : VolumeDescriptorVersion
  volume_flags : Nat
  system_identifier : List Nat
  volume_identifier : List Nat
  volume_space_size : Nat
  escape_sequences : List Nat
  volume_set_size : Nat
  volume_sequence_number : Nat
  logical_block_size : Nat
  path_table_size : Nat
  type_l_path_table_location : Nat
  optional_type_l_path_table_location : Nat
  type_m_path_table_location : Nat
  optional_type_m_path_table_location : Nat
  root_directory_record : RootDirectoryRecord
  volume_set_identifier : List Nat
  publisher_identifier : List Nat
  data_preparer_identifier : List Nat
  application_identifier : List Nat
  copyright_file_identifier : List Nat
  abstract_file_identifier : List Nat
  bibliographic_file_identifier : List Nat
  creation_date : DigitsDate
  modification_date : DigitsDate
  expiration_date : DigitsDate
  effective_date : DigitsDate
  file_structure_version : FileStructureVersion
  application_use : List Nat
deriving Repr, DecidableEq

/-- `IsoSerialize::serialize_unchecked` of `SupplementaryVolumeDescriptor`
(serialize.rs lines 651-718), statement by statement.  The type-M path-table
locations at 148..156 are written with `to_le_bytes` (little-endian) here. -/
def SupplementaryVolumeDescriptor.serialize_unchecked
    (d : SupplementaryVolumeDescriptor) (out : List Nat) : List Nat :=
  let out := writeRange out 0 [VolumeDescriptorType.supplementary.intoU8]
  let out := writeRange out 1 d.standard_identifier.as_bytes
  let out := writeRange out 6 [d.version.intoU8]
  let out := writeRange out 7 [d.volume_flags]
  let out := writeRange out 8 d.system_identifier
  let out := writeRange out 40 d.volume_identifier
  let out := fillRange out 72 80
  let out := writeRange out 80 (u32le d.volume_space_size)
  let out := writeRange out 84 (u32be d.volume_space_size)
  let out := fillRange out 88 120
  let out := writeRange out 120 (u16le d.volume_set_size)
  let out := writeRange out 122 (u16be d.volume_set_size)
  let out := writeRange out 124 (u16le d.volume_sequence_number)
  let out := writeRange out 126 (u16be d.volume_sequence_number)
  let out := writeRange out 128 (u16le d.logical_block_size)
  let out := writeRange out 130 (u16be d.logical_block_size)
  let out := writeRange out 132 (u32le d.path_table_size)
  let out := writeRange out 136 (u32be d.path_table_size)
  let out := writeRange out 140 (u32le d.type_l_path_table_location)
  let out := writeRange out 144 (u32le d.optional_type_l_path_table_location)
  let out := writeRange out 148 (u32le d.type_m_path_table_location)
  let out := writeRange out 152 (u32le d.optional_type_m_path_table_location)
  let out := onRange out 156 190 d.root_directory_record.serialize_unchecked
  let out := writeRange out 190 d.volume_set_identifier
  let out := writeRange out 318 d.publisher_identifier
  let out := writeRange out 446 d.data_preparer_identifier
  let out := writeRange out 574 d.application_identifier
  let out := writeRange out 702 d.copyright_file_identifier
  let out := writeRange out 739 d.abstract_file_identifier
  let out := writeRange out 776 d.bibliographic_file_identifier
  let out := onRange out 813 830 d.creation_date.serialize_unchecked
  let out := onRange out 830 847 d.modification_date.serialize_unchecked
  let out := onRange out 847 864 d.expiration_date.serialize_unchecked
  let out := onRange out 864 881 d.effective_date.serialize_unchecked
  let out := writeRange out 881 [d.file_structure_version.intoU8]
  let out := writeRange out 882 [0]
  let out := writeRange out 883 d.application_use
  let out := fillRange out 1395 2048
  out

/-- `IsoSerialize::serialize_unchecked` of `spec::VolumeDescriptorSetTerminator`:
tag 255, standard identifier `CD001`, version 1, rest zero. -/
def VolumeDescriptorSetTerminator.serialize_unchecked (out : List Nat) : List Nat :=
  let out := writeRange out 0 [VolumeDescriptorType.terminator.intoU8]
  let out := writeRange out 1 [67, 68, 48, 48, 49]
  let out := writeRange out 6 [VolumeDescriptorVersion.standard.intoU8]
  let out := fillRange out 7 2048
  out

end Isofs

/-- A fixed precise date used when instantiating descriptor values. -/
def refDate : Isofs.DigitsDate :=
  { year := 2024, month := 1, day := 2, hour := 3, minute := 4, second := 5,
    hundreths := 6, gmt_offset := 0 }

/-- A fixed numerical (7-byte) date used when instantiating descriptor values. -/
def refNumDate : Isofs.NumericalDate :=
  { years_since_1900 := 124, month := 1, day := 2, hour := 3, minute := 4,
    second := 5, gmt_offset := 0 }

/-- A root directory record used when instantiating descriptor values. -/
def refRootRecord : Isofs.RootDirectoryRecord :=
  { extent_location := 17, data_length := 0, recording_date := refNumDate,
    file_flags := 2, file_unit_size := 0, interleave_gap_size := 0,
    volume_sequence_number := 1 }

/-- A concrete supplementary volume descriptor whose type-M path-table
locations are `0x01020304` and `0x0A0B0C0D`. -/
def c5Svd : Isofs.SupplementaryVolumeDescriptor :=
  { standard_identifier := .cd001, version := .standard, volume_flags := 0,
    system_identifier := List.replicate 32 0,
    volume_identifier := List.replicate 32 0,
    volume_space_size := 0, escape_sequences := List.replicate 32 0,
    volume_set_size := 1, volume_sequence_number := 1,
    logical_block_size := 2048, path_table_size := 10,
    type_l_path_table_location := 0x11223344,
    optional_type_l_path_table_location := 0x55667788,
    type_m_path_table_location := 0x01020304,
    optional_type_m_path_table_location := 0x0A0B0C0D,
    root_directory_record := refRootRecord,
    volume_set_identifier := List.replicate 128 0,
    publisher_identifier := List.replicate 128 0,
    data_preparer_identifier := List.replicate 128 0,
    application_identifier := List.replicate 128 0,
    copyright_file_identifier := List.replicate 37 0,
    abstract_file_identifier := List.replicate 37 0,
    bibliographic_file_identifier := List.replicate 37 0,
    creation_date := refDate, modification_date := refDate,
    expiration_date := refDate, effective_date := refDate,
    file_structure_version := .standard,
    application_use := List.replicate 512 0 }

/-- A concrete primary volume descriptor with the same path-table locations as
`c5Svd`. -/
def c5Pvd : Isofs.PrimaryVolumeDescriptor :=
  { standard_identifier := .cd001, version := .standard,
    system_identifier := List.replicate 32 0,
    volume_identifier := List.replicate 32 0,
    volume_space_size := 0, volume_set_size := 1, volume_sequence_number := 1,
    logical_block_size := 2048, path_table_size := 10,
    type_l_path_table_location := 0x11223344,
    optional_type_l_path_table_location := 0x55667788,
    type_m_path_table_location := 0x01020304,
    optional_type_m_path_table_location := 0x0A0B0C0D,
    root_directory_record := refRootRecord,
    volume_set_identifier := List.replicate 128 0,
    publisher_identifier := List.replicate 128 0,
    data_preparer_identifier := List.replicate 128 0,
    application_identifier := List.replicate 128 0,
    copyright_file_identifier := List.replicate 37 0,
    abstract_file_identifier := List.replicate 37 0,
    bibliographic_file_identifier := List.replicate 37 0,
    creation_date := refDate, modification_date := refDate,
    expiration_date := refDate, effective_date := refDate,
    file_structure_version := .standard,
    application_use := List.replicate 512 0 }

/-- Claim C5, evaluated: the primary volume descriptor stores its type-M
path-table locations big-endian at 148..156 as claimed, but the supplementary
volume descriptor stores the same fields little-endian — with
`type_m = 0x01020304` and `optional_type_m = 0x0A0B0C0D` its bytes 148..156
are `[4,3,2,1,13,12,11,10]`, not the claimed big-endian
`[1,2,3,4,10,11,12,13]`. -/
theorem svd_type_m_path_table_little_endian :
    listSlice (c5Pvd.serialize_unchecked (List.replicate 2048 0)) 148 156
      = [1, 2, 3, 4, 10, 11, 12, 13] ∧
    listSlice (c5Svd.serialize_unchecked (List.replicate 2048 0)) 148 156
      = [4, 3, 2, 1, 13, 12, 11, 10] ∧
    ([4, 3, 2, 1, 13, 12, 11, 10] : List Nat) ≠ [1, 2, 3, 4, 10, 11, 12, 13] := by
  refine ⟨?_, ?_, by decide⟩ <;> decide

/-- Rust `out[a..b].copy_from_slice(&src)` with its panic semantics: `none`
models the panic raised when the destination region and `src` have different
lengths (or the region is out of bounds). -/
def copyFromSlice (out : List Nat) (a b : Nat) (src : List Nat) :
    Option (List Nat) :=
  if a ≤ b ∧ b ≤ out.length ∧ b - a = src.length then
    some (writeRange out a src)
  else
    none

namespace Isofs

/-- `spec::ElToritoBootRecordVolumeDescriptor`. -/
structure ElToritoBootRecordVolumeDescriptor where
  standard_identifier : StandardIdentifier
  version : VolumeDescriptorVersion
  boot_catalog_pointer : Nat
deriving Repr, DecidableEq

/-- The 23 ASCII bytes of the literal `EL TORITO SPECIFICATION`. -/
def elToritoSystemId : List Nat :=
  [69, 76, 32, 84, 79, 82, 73, 84, 79, 32, 83, 80, 69, 67, 73, 70, 73, 67,
   65, 84, 73, 79, 78]

/-- `IsoSerialize::serialize_unchecked` of `ElToritoBootRecordVolumeDescriptor`
(serialize.rs lines 956-966), with each `copy_from_slice` carrying its panic
check.  The source writes the 23-byte `EL TORITO SPECIFICATION` literal into
`out[7..=26]` (20 bytes) and the 4-byte catalog pointer into `out[47..=0x4a]`
(28 bytes). -/
def ElToritoBootRecordVolumeDescriptor.serialize_unchecked
    (d : ElToritoBootRecordVolumeDescriptor) (out : List Nat) :
    Option (List Nat) := do
  let out := writeRange out 0 [0]
  let out ← copyFromSlice out 1 6 d.standard_identifier.as_bytes
  let out := writeRange out 6 [d.version.intoU8]
  let out ← copyFromSlice out 7 27 elToritoSystemId
  let out := fillRange out 27 47
  let out ← copyFromSlice out 47 75 (u32le d.boot_catalog_pointer)
  let out := fillRange out 74 2048
  pure out

end Isofs

/-- Claim C10, refuted for every input: `ElToritoBootRecordVolumeDescriptor`
serialization always panics, because the 23-byte `EL TORITO SPECIFICATION`
literal is copied into the 20-byte region `out[7..=26]` — a
`copy_from_slice` length mismatch — regardless of the value or the output
buffer.  The model therefore returns `none` (the panic) for all inputs, never
`Ok`. -/
theorem el_torito_brvd_serialize_always_panics
    (d : Isofs.ElToritoBootRecordVolumeDescriptor) (out : List Nat) :
    d.serialize_unchecked out = none := by
  have hlit : ∀ l : List Nat, copyFromSlice l 7 27 Isofs.elToritoSystemId = none := by
    intro l
    unfold copyFromSlice
    have h : ¬ (27 - 7 = Isofs.elToritoSystemId.length) := by decide
    simp [h]
  unfold Isofs.ElToritoBootRecordVolumeDescriptor.serialize_unchecked
  cases hc : copyFromSlice (writeRange out 0 [0]) 1 6 d.standard_identifier.as_bytes with
  | none => simp [hc]
  | some out1 => simp [hc, hlit]

namespace Isopod

/-! ## isopod crate: constants, `utils.rs`, `directory.rs`, `volume.rs`, `iso.rs` -/

/-- Modelled from the spec: the `constants` module of the isopod crate is not
among the provided sources; per the spec a sector is 2048 bytes. -/
def SECTOR_SIZE : Nat := 2048

/-- Modelled from the spec: the 5 ASCII bytes `CD001` (`ISO_STANDARD_ID`). -/
def ISO_STANDARD_ID : List Nat := [67, 68, 48, 48, 49]

/-- Modelled from the spec: volume-descriptor type tag `Primary = 1`. -/
def PRIMARY_VOLUME_DESCRIPTOR : Nat := 1

/-- Modelled from the spec: volume-descriptor type tag `Terminator = 255`. -/
def VOLUME_DESCRIPTOR_SET_TERMINATOR : Nat := 255

/-- `utils::parse_iso_string`: the prefix of the buffer up to (excluding) the
first NUL or ASCII-space byte. -/
def parse_iso_string (buffer : List Nat) : List Nat :=
  buffer.takeWhile fun b => !(b == 0 || b == 32)

/-- `utils::parse_u16_both`: 0 when fewer than 4 bytes, else the little-endian
value of the first two. -/
def parse_u16_both (b : List Nat) : Nat :=
  if b.length < 4 then 0 else leVal (b.take 2)

/-- `utils::parse_u32_both`: 0 when fewer than 8 bytes, else the little-endian
value of the first four. -/
def parse_u32_both (b : List Nat) : Nat :=
  if b.length < 8 then 0 else leVal (b.take 4)

/-- Rust `raw.ends_with(tag)` on byte slices. -/
def endsWithTag (raw tag : List Nat) : Bool :=
  decide (tag.length ≤ raw.length) && decide (raw.drop (raw.length - tag.length) = tag)

/-- `directory::DirectoryEntry`.  The `recording_time : SystemTime` field is
omitted from the model: it is parsed through the simplified wall-clock
conversion in `utils.rs` and defaults to `UNIX_EPOCH`; no claim touches it. -/
structure DirectoryEntry where
  name : List Nat
  flags : Nat
  extent_location : Nat
  extent_size : Nat
deriving Repr, DecidableEq

/-- `DirectoryEntry::parse_from_buffer` (directory.rs lines 65-131), statement
by statement.  The name of a non-special entry is the identifier with an exact
`;1` suffix removed, passed through `parse_iso_string`; the discarded
`_ext_attr_length`, `_file_unit_size`, `_interleave_gap` and
`_volume_sequence` reads are elided. -/
def DirectoryEntry.parse_from_buffer (buffer : List Nat) : Option DirectoryEntry :=
  if buffer.length < 33 ∨ buffer.getD 0 0 = 0 then none
  else
    let record_length := buffer.getD 0 0
    if record_length < 33 ∨ record_length > buffer.length then none
    else
      let extent_location := parse_u32_both (listSlice buffer 2 10)
      let extent_size := parse_u32_both (listSlice buffer 10 18)
      let flags := buffer.getD 25 0
      let file_id_length := buffer.getD 32 0
      if 33 + file_id_length > record_length then none
      else
        let name :=
          if flags &&& 2 ≠ 0 ∧ file_id_length = 1 then
            if buffer.getD 33 0 = 0 then [46]
            else if buffer.getD 33 0 = 1 then [46, 46]
            else [85, 78, 75, 78, 79, 87, 78, 95] ++ decDigits (buffer.getD 33 0)
          else
            let raw := listSlice buffer 33 (33 + file_id_length)
            if endsWithTag raw [59, 49] then
              parse_iso_string (raw.take (raw.length - 2))
            else
              parse_iso_string raw
        some { name := name, flags := flags, extent_location := extent_location,
               extent_size := extent_size }

/-- `volume::PrimaryVolumeDescriptor` (isopod).  The `creation_time` /
`modification_time` fields are omitted from the model: on parse failure they
fall back to the wall clock (`SystemTime::now()`); no claim touches them. -/
structure PrimaryVolumeDescriptor where
  volume_id : List Nat
  publisher_id : List Nat
  preparer_id : List Nat
  application_id : List Nat
  root_directory_entry : DirectoryEntry
  volume_space_size : Nat
  block_size : Nat
  path_table_size : Nat
  path_table_location_l : Nat
  optional_path_table_location_l : Nat
  path_table_location_m : Nat
  optional_path_table_location_m : Nat
deriving Repr, DecidableEq

/-- The `unwrap_or_else(|| DirectoryEntry::new_directory("ROOT", 0, 0))`
fallback used for the root directory entry. -/
def rootFallback : DirectoryEntry :=
  { name := [82, 79, 79, 84], flags := 2, extent_location := 0, extent_size := 0 }

/-- `PrimaryVolumeDescriptor::parse_from_buffer` (volume.rs lines 115-190):
for each sector index 0..16, at offset `sector * SECTOR_SIZE`, if the tag byte
is `PRIMARY_VOLUME_DESCRIPTOR` and bytes offset+1..offset+6 are `CD001`,
return the descriptor parsed at that offset; otherwise `None`. -/
def PrimaryVolumeDescriptor.parse_from_buffer (buffer : List Nat) :
    Option PrimaryVolumeDescriptor :=
  (List.range 16).findSome? fun sector =>
    let offset := sector * SECTOR_SIZE
    if offset + 7 ≤ buffer.length ∧
        buffer.getD offset 0 = PRIMARY_VOLUME_DESCRIPTOR ∧
        listSlice buffer (offset + 1) (offset + 6) = ISO_STANDARD_ID then
      some
        { volume_id := parse_iso_string (listSlice buffer (offset + 40) (offset + 72))
          publisher_id := parse_iso_string (listSlice buffer (offset + 318) (offset + 446))
          preparer_id := parse_iso_string (listSlice buffer (offset + 446) (offset + 574))
          application_id := parse_iso_string (listSlice buffer (offset + 574) (offset + 702))
          root_directory_entry :=
            (DirectoryEntry.parse_from_buffer
                (listSlice buffer (offset + 156) (offset + 156 + 34))).getD rootFallback
          volume_space_size := parse_u32_both (listSlice buffer (offset + 80) (offset + 88))
          block_size := parse_u16_both (listSlice buffer (offset + 128) (offset + 132))
          path_table_size := parse_u32_both (listSlice buffer (offset + 132) (offset + 140))
          path_table_location_l := leVal (listSlice buffer (offset + 140) (offset + 144))
          optional_path_table_location_l := leVal (listSlice buffer (offset + 144) (offset + 148))
          path_table_location_m := beVal (listSlice buffer (offset + 148) (offset + 152))
          optional_path_table_location_m := beVal (listSlice buffer (offset + 152) (offset + 156)) }
    else none

/-- The volume-descriptor scan of `Iso::read_from` (iso.rs lines 60-115): read
the FIRST 16 sectors of the storage into a zero-initialized buffer (a short
read keeps the zero tail) and search it with
`PrimaryVolumeDescriptor::parse_from_buffer`.  The subsequent root-directory
validation and read are outside this scan. -/
def read_from_scan (storage : List Nat) : Option PrimaryVolumeDescriptor :=
  let buffer := storage.take (SECTOR_SIZE * 16) ++
    List.replicate (SECTOR_SIZE * 16 - storage.length) 0
  PrimaryVolumeDescriptor.parse_from_buffer buffer

/-- The record-scan loop of `Directory::read_from_iso` (directory.rs lines
356-410), yielding each record the loop parses with the `.` / `..` filter of
lines 373-374 applied.  The per-record insertion effects (subdirectory
recursion with its self-reference guard, file-content reads) consume the
yielded records and do not affect which offsets the loop visits.  `fuel`
bounds the iteration count; the loop strictly increases `offset` each round,
so `buffer.length + 1` rounds suffice.  The sector-boundary skip
`(offset + SECTOR_SIZE) & !(SECTOR_SIZE - 1)` is written as round-down
division (equal for the power-of-two `SECTOR_SIZE`). -/
def dirLoop (buffer : List Nat) : Nat → Nat → List DirectoryEntry
  | _, 0 => []
  | offset, fuel + 1 =>
    if offset < buffer.length then
      if buffer.getD offset 0 = 0 ∨ offset + 1 ≥ buffer.length then []
      else
        let record_length := buffer.getD offset 0
        if record_length = 0 ∨ offset + record_length > buffer.length then
          dirLoop buffer ((offset + SECTOR_SIZE) / SECTOR_SIZE * SECTOR_SIZE) fuel
        else
          let rest := dirLoop buffer (offset + record_length) fuel
          match DirectoryEntry.parse_from_buffer
              (listSlice buffer offset (offset + record_length)) with
          | some e =>
            if e.name ≠ [46] ∧ e.name ≠ [46, 46] then e :: rest else rest
          | none => rest
    else []

/-- Entry point for the record-scan loop: start at offset 0 with enough
fuel. -/
def read_from_iso_records (buffer : List Nat) : List DirectoryEntry :=
  dirLoop buffer 0 (buffer.length + 1)

end Isopod

/-- A directory-record byte buffer for a regular file (flags 0) with extent
LBA 20, data length 5, volume sequence 1 and the given identifier: record
length `33 + ident.length` at byte 0, identifier length at byte 32, identifier
from byte 33. -/
def mkFileRecord (ident : List Nat) : List Nat :=
  [33 + ident.length, 0,
   20, 0, 0, 0, 0, 0, 0, 20,
   5, 0, 0, 0, 0, 0, 0, 5,
   0, 0, 0, 0, 0, 0, 0,
   0, 0, 0,
   1, 0, 0, 1,
   ident.length] ++ ident

/-- Claim C7 counterexample: parsing a directory record whose identifier is
`FOO;42` yields the name `FOO;42` — the `;42` suffix is NOT trimmed (only an
exact `;1` suffix is), and no revision value exists to be exposed.  The claim
says the name would be `FOO`. -/
theorem file_identifier_revision_not_trimmed :
    (Isopod.DirectoryEntry.parse_from_buffer
        (mkFileRecord [70, 79, 79, 59, 52, 50])).map (fun e => e.name)
      = some [70, 79, 79, 59, 52, 50] ∧
    ([70, 79, 79, 59, 52, 50] : List Nat) ≠ [70, 79, 79] := by
  constructor <;> decide

/-- Claim C7 (amended): the exposed name strips exactly a trailing `;1` — for
every identifier of the form `s ++ ";1"` (bytes of `s` free of NUL and space,
total length within the record-length byte), the parsed entry's name is `s`;
identifiers with any other `;<rev>` suffix keep it (see the companion fact
that `FOO;42` parses to name `FOO;42`), and no revision value is exposed. -/
theorem file_name_strips_exact_semicolon_one (s : List Nat)
    (hlen : s.length ≤ 220) (hb : ∀ b ∈ s, b ≠ 0 ∧ b ≠ 32) :
    (Isopod.DirectoryEntry.parse_from_buffer (mkFileRecord (s ++ [59, 49]))).map
        (fun e => e.name) = some s := by
  have hident : (s ++ [59, 49]).length = s.length + 2 := by simp
  have hL : (mkFileRecord (s ++ [59, 49])).length = 35 + s.length := by
    simp [mkFileRecord]
    omega
  have e0 : (mkFileRecord (s ++ [59, 49])).getD 0 0 = 35 + s.length := by
    simp [mkFileRecord]
    omega
  have e25 : (mkFileRecord (s ++ [59, 49])).getD 25 0 = 0 := by
    simp [mkFileRecord]
  have e32 : (mkFileRecord (s ++ [59, 49])).getD 32 0 = s.length + 2 := by
    simp [mkFileRecord]
  have hdrop : (mkFileRecord (s ++ [59, 49])).drop 33 = s ++ [59, 49] := by
    unfold mkFileRecord
    apply List.drop_left'
    simp
  have hraw : listSlice (mkFileRecord (s ++ [59, 49])) 33 (33 + (s.length + 2))
      = s ++ [59, 49] := by
    unfold listSlice
    rw [hdrop]
    rw [Nat.add_sub_cancel_left]
    rw [← hident, List.take_length]
  have hsuffix : Isopod.endsWithTag (s ++ [59, 49]) [59, 49] = true := by
    unfold Isopod.endsWithTag
    have h1 : (s ++ [59, 49]).length - ([59, 49] : List Nat).length = s.length := by
      simp
    rw [h1]
    simp [List.drop_left]
  have hiso : Isopod.parse_iso_string s = s := by
    unfold Isopod.parse_iso_string
    rw [List.takeWhile_eq_self_iff]
    intro x hx
    have hbx := hb x hx
    simp [hbx.1, hbx.2]
  simp only [Isopod.DirectoryEntry.parse_from_buffer]
  rw [if_neg (by rw [hL, e0]; omega)]
  rw [if_neg (by rw [hL, e0]; omega)]
  rw [if_neg (by rw [e0, e32]; omega)]
  rw [e25, e32]
  rw [if_neg (by simp)]
  rw [hraw, if_pos hsuffix, hident, Nat.add_sub_cancel]
  rw [List.take_left, hiso]
  simp

/-- Witness for C7 (amended) at `s = HELLO.TXT` (so the identifier is
`HELLO.TXT;1`): the hypotheses hold and the name parses back to
`HELLO.TXT`. -/
theorem file_name_strips_exact_semicolon_one_witness :
    ([72, 69, 76, 76, 79, 46, 84, 88, 84] : List Nat).length ≤ 220 ∧
    (∀ b ∈ ([72, 69, 76, 76, 79, 46, 84, 88, 84] : List Nat), b ≠ 0 ∧ b ≠ 32) ∧
    (Isopod.DirectoryEntry.parse_from_buffer
        (mkFileRecord ([72, 69, 76, 76, 79, 46, 84, 88, 84] ++ [59, 49]))).map
        (fun e => e.name) = some [72, 69, 76, 76, 79, 46, 84, 88, 84] :=
  ⟨by decide, by decide,
    file_name_strips_exact_semicolon_one [72, 69, 76, 76, 79, 46, 84, 88, 84]
      (by decide) (by decide)⟩

/-- Reading any position of an all-zero byte buffer gives 0. -/
theorem getD_replicate_zero (n i : Nat) : (List.replicate n (0 : Nat)).getD i 0 = 0 := by
  induction n generalizing i with
  | zero => simp
  | succ n ih =>
    cases i with
    | zero => simp [List.replicate_succ]
    | succ i => simp [List.replicate_succ, List.getD_cons_succ, ih]

/-- The volume-descriptor search finds nothing in an all-zero 16-sector
buffer: every sector's tag byte is 0, not the primary tag. -/
theorem parse_from_buffer_all_zero :
    Isopod.PrimaryVolumeDescriptor.parse_from_buffer (List.replicate 32768 0) = none := by
  unfold Isopod.PrimaryVolumeDescriptor.parse_from_buffer
  rw [List.findSome?_eq_none_iff]
  intro sector _
  rw [if_neg]
  intro hcond
  have h0 := hcond.2.1
  rw [getD_replicate_zero] at h0
  simp [Isopod.PRIMARY_VOLUME_DESCRIPTOR] at h0

/-- When the very first sector of the buffer carries the primary tag and the
`CD001` identifier, the scan returns the descriptor parsed at offset 0. -/
theorem parse_from_buffer_first_sector (buffer : List Nat)
    (h7 : 7 ≤ buffer.length) (h0 : buffer.getD 0 0 = 1)
    (hid : listSlice buffer 1 6 = Isopod.ISO_STANDARD_ID) :
    Isopod.PrimaryVolumeDescriptor.parse_from_buffer buffer = some
      { volume_id := Isopod.parse_iso_string (listSlice buffer 40 72)
        publisher_id := Isopod.parse_iso_string (listSlice buffer 318 446)
        preparer_id := Isopod.parse_iso_string (listSlice buffer 446 574)
        application_id := Isopod.parse_iso_string (listSlice buffer 574 702)
        root_directory_entry := (Isopod.DirectoryEntry.parse_from_buffer
            (listSlice buffer 156 190)).getD Isopod.rootFallback
        volume_space_size := Isopod.parse_u32_both (listSlice buffer 80 88)
        block_size := Isopod.parse_u16_both (listSlice buffer 128 132)
        path_table_size := Isopod.parse_u32_both (listSlice buffer 132 140)
        path_table_location_l := leVal (listSlice buffer 140 144)
        optional_path_table_location_l := leVal (listSlice buffer 144 148)
        path_table_location_m := beVal (listSlice buffer 148 152)
        optional_path_table_location_m := beVal (listSlice buffer 152 156) } := by
  unfold Isopod.PrimaryVolumeDescriptor.parse_from_buffer
  have hr : List.range 16 = 0 :: [1, 2, 3, 4, 5, 6, 7, 8, 9, 10, 11, 12, 13, 14, 15] := by
    decide
  rw [hr, List.findSome?_cons]
  simp only [Nat.zero_mul, Nat.zero_add, Isopod.PRIMARY_VOLUME_DESCRIPTOR]
  rw [if_pos ⟨h7, h0, hid⟩]

/-- A minimal valid primary-volume-descriptor sector: tag 1, `CD001`,
version 1, rest zero. -/
def pvdSector : List Nat := [1, 67, 68, 48, 48, 49, 1] ++ List.replicate 2041 0

/-- An image laid out the way this crate's own writer lays it out: 16 zero
sectors of system area, then the primary volume descriptor at sector 16. -/
def img16 : List Nat := List.replicate 32768 0 ++ pvdSector

/-- The descriptor value the reader builds from a minimal PVD found at
sector 0 (all string fields empty, all numeric fields zero, fallback root). -/
def pvd0 : Isopod.PrimaryVolumeDescriptor :=
  { volume_id := [], publisher_id := [], preparer_id := [], application_id := []
    root_directory_entry := Isopod.rootFallback
    volume_space_size := 0, block_size := 0, path_table_size := 0
    path_table_location_l := 0, optional_path_table_location_l := 0
    path_table_location_m := 0, optional_path_table_location_m := 0 }

set_option maxRecDepth 2000 in
/-- Claim C2, refuted on the code: the reader's scan covers sectors 0..16 of
the storage, not a scan starting at sector 16.  On `img16` — sectors 0..16
zero and a valid PVD at sector 16, exactly the layout this crate's own
`write_to` produces — the scan finds nothing; conversely a descriptor located
at sector 0, before sector 16, IS used to populate the primary slot. -/
theorem read_from_scan_covers_first_16_sectors :
    Isopod.read_from_scan img16 = none ∧
    Isopod.read_from_scan pvdSector = some pvd0 := by
  have hps : pvdSector.length = 2048 := by
    unfold pvdSector
    rw [List.length_append, List.length_replicate]
    rfl
  constructor
  · have hbuf : img16.take (Isopod.SECTOR_SIZE * 16) ++
        List.replicate (Isopod.SECTOR_SIZE * 16 - img16.length) 0
        = List.replicate 32768 0 := by
      have e1 : img16.take (Isopod.SECTOR_SIZE * 16) = List.replicate 32768 0 := by
        unfold img16
        apply List.take_left'
        rw [List.length_replicate]
        rfl
      have e2 : Isopod.SECTOR_SIZE * 16 - img16.length = 0 := by
        unfold img16
        rw [List.length_append, List.length_replicate, hps]
        rfl
      rw [e1, e2, List.replicate_zero, List.append_nil]
    calc Isopod.read_from_scan img16
        = Isopod.PrimaryVolumeDescriptor.parse_from_buffer
            (img16.take (Isopod.SECTOR_SIZE * 16) ++
              List.replicate (Isopod.SECTOR_SIZE * 16 - img16.length) 0) := rfl
      _ = Isopod.PrimaryVolumeDescriptor.parse_from_buffer
            (List.replicate 32768 0) := by rw [hbuf]
      _ = none := parse_from_buffer_all_zero
  · unfold Isopod.read_from_scan
    have h1 : pvdSector.take (Isopod.SECTOR_SIZE * 16) = pvdSector := by
      apply List.take_of_length_le
      rw [hps]
      decide
    have h2 : Isopod.SECTOR_SIZE * 16 - pvdSector.length = 30720 := by
      rw [hps]
      rfl
    rw [h1, h2]
    rw [parse_from_buffer_first_sector (pvdSector ++ List.replicate 30720 0)
      (by rw [List.length_append, hps]; omega) (by decide) (by decide)]
    decide

/-- One productive round of the record-scan loop: at a live offset holding a
nonzero record length that fits the extent, the loop parses the record, yields
it (when it is not `.` or `..`) and continues at `offset + record_length`. -/
theorem dirLoop_yield (buffer : List Nat) (offset fuel : Nat)
    (e : Isopod.DirectoryEntry)
    (h1 : offset + 1 < buffer.length)
    (h2 : buffer.getD offset 0 ≠ 0)
    (h3 : offset + buffer.getD offset 0 ≤ buffer.length)
    (he : Isopod.DirectoryEntry.parse_from_buffer
        (listSlice buffer offset (offset + buffer.getD offset 0)) = some e)
    (hname : e.name ≠ [46] ∧ e.name ≠ [46, 46]) :
    Isopod.dirLoop buffer offset (fuel + 1)
      = e :: Isopod.dirLoop buffer (offset + buffer.getD offset 0) fuel := by
  simp only [Isopod.dirLoop]
  rw [if_pos (by omega)]
  rw [if_neg (by push_neg; exact ⟨h2, by omega⟩)]
  rw [if_neg (by push_neg; exact ⟨h2, by omega⟩)]
  rw [he]
  simp only [if_pos hname]

/-- The loop ends — yielding nothing further — when the byte at the current
offset is zero or fewer than two bytes remain. -/
theorem dirLoop_stop (buffer : List Nat) (offset fuel : Nat)
    (h : buffer.getD offset 0 = 0 ∨ offset + 1 ≥ buffer.length) :
    Isopod.dirLoop buffer offset (fuel + 1) = [] := by
  simp only [Isopod.dirLoop]
  by_cases hlt : offset < buffer.length
  · rw [if_pos hlt, if_pos h]
  · rw [if_neg hlt]

/-- A 34-byte directory record for a file named `A` at extent LBA 20 with
data length 5. -/
def recA : List Nat :=
  [34, 0, 20, 0, 0, 0, 0, 0, 0, 20, 5, 0, 0, 0, 0, 0, 0, 5,
   0, 0, 0, 0, 0, 0, 0, 0, 0, 0, 1, 0, 0, 1, 1, 65]

/-- A 34-byte directory record for a file named `B` at extent LBA 21 with
data length 5. -/
def recB : List Nat :=
  [34, 0, 21, 0, 0, 0, 0, 0, 0, 21, 5, 0, 0, 0, 0, 0, 0, 5,
   0, 0, 0, 0, 0, 0, 0, 0, 0, 0, 1, 0, 0, 1, 1, 66]

/-- A two-sector directory extent: record `A` then zero padding filling sector
0, record `B` at the start of sector 1, zero padding to the end. -/
def c6buf : List Nat :=
  (recA ++ List.replicate 2014 0) ++ (recB ++ List.replicate 2014 0)

/-- The entry parsed from `recA`. -/
def entryA : Isopod.DirectoryEntry :=
  { name := [65], flags := 0, extent_location := 20, extent_size := 5 }

/-- The entry parsed from `recB`. -/
def entryB : Isopod.DirectoryEntry :=
  { name := [66], flags := 0, extent_location := 21, extent_size := 5 }

/-- Claim C6, refuted on the code: on a two-sector directory extent whose
first sector is record `A` followed by zero padding and whose second sector
starts with record `B`, the scan loop yields only `A` — hitting the 0x00 byte
at offset 34 ENDS iteration instead of skipping to the sector boundary — even
though a perfectly valid record `B` sits at the next sector boundary
(offset 2048), as the second conjunct shows. -/
theorem dir_iteration_stops_at_zero_byte :
    Isopod.read_from_iso_records c6buf = [entryA] ∧
    Isopod.DirectoryEntry.parse_from_buffer (listSlice c6buf 2048 2082)
      = some entryB := by
  have hA : recA.length = 34 := rfl
  have hB : recB.length = 34 := rfl
  have hfront : (recA ++ List.replicate 2014 (0 : Nat)).length = 2048 := by
    rw [List.length_append, List.length_replicate, hA]
  have hlen : c6buf.length = 4096 := by
    unfold c6buf
    rw [List.length_append, hfront, List.length_append, List.length_replicate, hB]
  have g0 : c6buf.getD 0 0 = 34 := by decide
  have g34 : c6buf.getD 34 0 = 0 := by decide
  constructor
  · unfold Isopod.read_from_iso_records
    rw [hlen]
    rw [show (4096 : Nat) + 1 = 4095 + 1 + 1 from rfl]
    rw [dirLoop_yield c6buf 0 (4095 + 1) entryA
      (by rw [hlen]; decide) (by rw [g0]; decide) (by rw [g0, hlen]; decide)
      (by rw [g0]; decide) (by decide)]
    rw [g0, Nat.zero_add]
    rw [dirLoop_stop c6buf 34 4095 (Or.inl g34)]
  · have hdrop : c6buf.drop 2048 = recB ++ List.replicate 2014 0 := by
      unfold c6buf
      exact List.drop_left' hfront
    unfold listSlice
    rw [hdrop]
    rw [show (2082 : Nat) - 2048 = 34 from rfl]
    rw [List.take_left' hB]
    decide

namespace Isofs

/-! ## isofs crate: `writer/fs.rs`, `writer/volume.rs` and the active
`IsoWriter::write` of `writer/mod.rs` -/

/-- `writer::fs::Entry`: a file entry carries its content bytes (standing for
the opened handle, with `metadata.len()` equal to the content length); a
directory entry carries its children. -/
inductive Entry where
  | file (extent_lba : Option Nat) (name : List Nat) (content : List Nat)
  | directory (extent_lba : Option Nat) (name : List Nat) (entries : List Entry)

/-- `Entry::name`. -/
def Entry.name : Entry → List Nat
  | .file _ n _ => n
  | .directory _ n _ => n

/-- The `length` field of an entry's directory record:
`33 + name.len() as u8 + (name.len() % 2 == 0) as u8` in `u8` arithmetic
(note the source really adds 1 for EVEN name lengths). -/
def Entry.recordLength (e : Entry) : Nat :=
  (33 + e.name.length % U8MOD + (if e.name.length % 2 = 0 then 1 else 0)) % U8MOD

/-- The `data_length` field of an entry's directory record: the file size for
files, the sum of the children's record lengths (as `u32`) for directories. -/
def Entry.data_length : Entry → Nat
  | .file _ _ content => content.length % U32MOD
  | .directory _ _ entries => (entries.map Entry.recordLength).sum % U32MOD

/-- `EntryLike::descriptor` for `FileEntry` / `DirectoryEntry` (fs.rs lines
72-88 and 120-141); the wall-clock recording date is the `now` parameter. -/
def Entry.descriptor (now : NumericalDate) (e : Entry) : DirectoryRecord :=
  { length := e.recordLength
    extended_attribute_length := 0
    extent_location :=
      (match e with
       | .file lba _ _ => lba
       | .directory lba _ _ => lba).getD 0
    data_length := e.data_length
    recording_date := now
    file_flags := (match e with | .file .. => 0 | .directory .. => 2)
    file_unit_size := 0
    interleave_gap_size := 0
    volume_sequence_number := 1
    file_identifier_length := e.name.length % U8MOD
    file_identifier := fromBytesTruncated 32 e.name }

/-- `writer::fs::RootDirectory`. -/
structure RootDirectory where
  extent_lba : Option Nat
  entries : List Entry

/-- `RootDirectory::root_descriptor` (fs.rs lines 250-264). -/
def RootDirectory.root_descriptor (now : NumericalDate) (r : RootDirectory) :
    RootDirectoryRecord :=
  { extent_location := r.extent_lba.getD 0
    data_length := ((r.entries.map Entry.recordLength).sum) % U32MOD
    recording_date := now
    file_flags := 2
    file_unit_size := 0
    interleave_gap_size := 0
    volume_sequence_number := 1 }

/-- The entry loop of `DirectoryLike::assign_extent_lbas` (fs.rs lines 42-52)
with `EntryLike::assign_extent_lba` inlined: each file gets one allocation of
its data length; each directory gets the allocation from `assign_extent_lba`
(immediately overwritten) and then the allocation made by its own
`assign_extent_lbas`, followed by the recursive walk of its children. -/
def assignEntries (now : NumericalDate) : List Entry → LbaAllocator →
    List Entry × LbaAllocator
  | [], a => ([], a)
  | .file _ n c :: rest, a =>
    let p := a.allocate (c.length % U32MOD)
    let r := assignEntries now rest p.2
    (.file (some p.1) n c :: r.1, r.2)
  | .directory _ n es :: rest, a =>
    let dl := ((es.map Entry.recordLength).sum) % U32MOD
    let p1 := a.allocate dl
    let p2 := p1.2.allocate dl
    let q := assignEntries now es p2.2
    let r := assignEntries now rest q.2
    (.directory (some p2.1) n q.1 :: r.1, r.2)

/-- `RootDirectory`'s `assign_extent_lbas` (via
`Filesystem::assign_extent_lbas`): allocate the root's own record-set extent,
then walk the entries. -/
def RootDirectory.assign_extent_lbas (now : NumericalDate) (r : RootDirectory)
    (a : LbaAllocator) : RootDirectory × LbaAllocator :=
  let p := a.allocate (((r.entries.map Entry.recordLength).sum) % U32MOD)
  let q := assignEntries now r.entries p.2
  ({ extent_lba := some p.1, entries := q.1 }, q.2)

/-- Rust `Vec::resize(n, 0)`. -/
def resizeList (v : List Nat) (n : Nat) : List Nat :=
  v.take n ++ List.replicate (n - v.length) 0

/-- The descriptor-writing loop of `write_directory_entry` (mod.rs lines
509-518): for each entry, resize the shared `byte_buf` to the descriptor
extent, serialize into it, and hand the buffer to the sector writer. -/
def descriptorsLoop (now : NumericalDate) : List Entry →
    List Nat × SectorWriter → List Nat × SectorWriter
  | [], s => s
  | e :: rest, (byte_buf, sw) =>
    let d := Entry.descriptor now e
    let buf1 := resizeList byte_buf d.extent
    let buf2 := d.serialize_unchecked buf1
    let sw1 := (sw.write_aligned (buf2.take d.extent)).2
    descriptorsLoop now rest (buf2, sw1)

/-- The recursive write phase of `IsoWriter::write` (`write_entry` /
`write_file_entry` / `write_directory_entry`, mod.rs lines 474-539): a file
entry seeks to its extent and streams its content; a directory entry runs the
descriptor loop through a fresh sector writer at its extent and then recurses
into its children (the directory body of `write_directory_entry` is inlined
in the directory arm). -/
def writeEntries (now : NumericalDate) (sector_size : Nat) :
    List Entry → Sink → Sink
  | [], sink => sink
  | .file lba _ content :: rest, sink =>
    let sink1 := (sink.seek (lba.getD 0 * sector_size)).writeAll content
    writeEntries now sector_size rest sink1
  | .directory lba _ es :: rest, sink =>
    let sw := descriptorsLoop now es ([], SectorWriter.new sink (lba.getD 0) sector_size)
    let sink1 := writeEntries now sector_size es sw.2.storage
    writeEntries now sector_size rest sink1

/-- `write_directory_entry` (mod.rs lines 492-525) for a directory with
extent `lba` and children `es`: write all the children's descriptors through
a `SectorWriter` positioned at the directory's extent, then write each child
entry. -/
def write_directory_entry (now : NumericalDate) (sector_size : Nat)
    (lba : Option Nat) (es : List Entry) (sink : Sink) : Sink :=
  let sw := descriptorsLoop now es ([], SectorWriter.new sink (lba.getD 0) sector_size)
  writeEntries now sector_size es sw.2.storage

/-- `writer::volume::VolumeContext`. -/
structure VolumeContext where
  sector_size : Nat
  standard_identifier : StandardIdentifier

/-- `writer::fs::Filesystem` (a wrapper holding the root directory). -/
structure Filesystem where
  root : RootDirectory

/-- `writer::volume::PrimaryVolume`. -/
structure PrimaryVolume where
  volume_id : List Nat
  publisher : Option (List Nat)
  preparer : Option (List Nat)
  filesystem : Filesystem

/-- `PrimaryVolume::descriptor` (volume.rs lines 29-59); the two wall-clock
date kinds (`chrono::Utc::now()` conversions) are the `nowP` / `nowN`
parameters. -/
def PrimaryVolume.descriptor (pv : PrimaryVolume) (context : VolumeContext)
    (nowP : DigitsDate) (nowN : NumericalDate) : PrimaryVolumeDescriptor :=
  { standard_identifier := context.standard_identifier
    version := .standard
    system_identifier := fromBytesTruncated 32 [76, 73, 78, 85, 88]
    volume_identifier := fromBytesTruncated 32 pv.volume_id
    volume_space_size := 0
    volume_set_size := 0
    volume_sequence_number := 0
    logical_block_size := context.sector_size % 65536
    path_table_size := 0
    type_l_path_table_location := pv.filesystem.root.extent_lba.getD 0
    optional_type_l_path_table_location := 0
    type_m_path_table_location := 0
    optional_type_m_path_table_location := 0
    root_directory_record := pv.filesystem.root.root_descriptor nowN
    volume_set_identifier := fromBytesTruncated 128 [97, 98, 99]
    publisher_identifier := fromBytesTruncated 128 [104, 105, 32, 110, 111, 120, 105, 101, 32, 40, 58]
    data_preparer_identifier := fromBytesTruncated 128 [100, 101, 102]
    application_identifier := fromBytesTruncated 128 [103, 104, 105]
    copyright_file_identifier := fromBytesTruncated 37 [106, 107, 108]
    abstract_file_identifier := fromBytesTruncated 37 [109, 110, 111]
    bibliographic_file_identifier := fromBytesTruncated 37 [112, 113, 114]
    creation_date := nowP
    modification_date := nowP
    expiration_date := nowP
    effective_date := nowP
    file_structure_version := .standard
    application_use := List.replicate 512 0 }

/-- `writer::Standard`. -/
inductive Standard where
  | iso9660

/-- `Standard::standard_identifier`. -/
def Standard.standard_identifier : Standard → StandardIdentifier
  | .iso9660 => .cd001

/-- `writer::WriterOptions`. -/
structure WriterOptions where
  sector_size : Nat
  standard : Standard

/-- `writer::Volume`. -/
inductive Volume where
  | primary (pv : PrimaryVolume)

/-- `writer::IsoWriter`. -/
structure IsoWriter where
  options : WriterOptions
  volumes : List Volume

/-- The per-volume body of the `IsoWriter::write` loop (mod.rs lines 556-565):
assign extent LBAs, serialize the primary volume descriptor into the shared
2048-byte buffer, write the buffer at the CURRENT position, then write the
root directory. -/
def volumesLoop (context : VolumeContext) (nowP : DigitsDate)
    (nowN : NumericalDate) : List Volume → Sink × LbaAllocator × List Nat → Sink
  | [], s => s.1
  | .primary pv :: rest, (sink, a, bytes) =>
    let pr := pv.filesystem.root.assign_extent_lbas nowN a
    let pv1 : PrimaryVolume := { pv with filesystem := { root := pr.1 } }
    let bytes1 := (pv1.descriptor context nowP nowN).serialize_unchecked bytes
    let sink1 := sink.writeAll bytes1
    let sink2 := write_directory_entry nowN context.sector_size
      pr.1.extent_lba pr.1.entries sink1
    volumesLoop context nowP nowN rest (sink2, pr.2, bytes1)

/-- `IsoWriter::write` (mod.rs lines 470-569): build the allocator starting at
`volumes.len() + 16`, seek the sink to byte 0, and run the volume loop with
the shared 2048-byte serialization buffer. -/
def IsoWriter.write (w : IsoWriter) (nowP : DigitsDate) (nowN : NumericalDate)
    (sink : Sink) : Sink :=
  let a := LbaAllocator.new w.options.sector_size (w.volumes.length + 16)
  let context : VolumeContext :=
    { sector_size := w.options.sector_size
      standard_identifier := w.options.standard.standard_identifier }
  let sink0 := sink.seek 0
  volumesLoop context nowP nowN w.volumes (sink0, a, List.replicate 2048 0)

end Isofs

/-- `writeRange` preserves a buffer length `N` when the write fits. -/
theorem writeRange_keepsN (N : Nat) (out src : List Nat) (s : Nat)
    (h2 : s + src.length ≤ N) (h : out.length = N) :
    (writeRange out s src).length = N := by
  simp only [writeRange, List.length_append, List.length_take, List.length_drop, h]
  omega

/-- `onRange` preserves a buffer length `N` when the region is inside the
buffer and the serializer preserves the region length. -/
theorem onRange_keepsN (N : Nat) (out : List Nat) (a b : Nat)
    (f : List Nat → List Nat) (hab : a ≤ b) (hb : b ≤ N)
    (hf : ∀ region : List Nat, region.length = b - a → (f region).length = b - a)
    (h : out.length = N) : (onRange out a b f).length = N := by
  have hs : (listSlice out a b).length = b - a := by
    simp only [listSlice, List.length_take, List.length_drop, h]
    omega
  have hfr := hf _ hs
  simp only [onRange, List.length_append, List.length_take, List.length_drop, hfr, h]
  omega

/-- Serializing any `NumericalDate` preserves the length of its 7-byte
region (it writes 6 single bytes at offsets 0..5). -/
theorem numericalDate_keeps (d : Isofs.NumericalDate) (region : List Nat)
    (h : region.length = 7) :
    (d.serialize_unchecked region).length = 7 := by
  unfold Isofs.NumericalDate.serialize_unchecked
  apply writeRange_keepsN 7 _ _ _ (by simp)
  apply writeRange_keepsN 7 _ _ _ (by simp)
  apply writeRange_keepsN 7 _ _ _ (by simp)
  apply writeRange_keepsN 7 _ _ _ (by simp)
  apply writeRange_keepsN 7 _ _ _ (by simp)
  apply writeRange_keepsN 7 _ _ _ (by simp)
  exact h

/-- Serializing any `RootDirectoryRecord` preserves the length of its 34-byte
region. -/
theorem rootRecord_keeps (r : Isofs.RootDirectoryRecord) (region : List Nat)
    (h : region.length = 34) :
    (r.serialize_unchecked region).length = 34 := by
  unfold Isofs.RootDirectoryRecord.serialize_unchecked
  apply writeRange_keepsN 34 _ _ _ (by simp)
  apply writeRange_keepsN 34 _ _ _ (by simp)
  apply writeRange_keepsN 34 _ _ _ (by simp [u16be])
  apply writeRange_keepsN 34 _ _ _ (by simp [u16le])
  apply writeRange_keepsN 34 _ _ _ (by simp)
  apply writeRange_keepsN 34 _ _ _ (by simp)
  apply writeRange_keepsN 34 _ _ _ (by simp)
  apply onRange_keepsN 34 _ 18 25 _ (by decide) (by decide)
    (fun region hr => numericalDate_keeps r.recording_date region hr)
  apply writeRange_keepsN 34 _ _ _ (by simp [u32be, u32le])
  apply writeRange_keepsN 34 _ _ _ (by simp [u32le])
  apply writeRange_keepsN 34 _ _ _ (by simp [u32be, u32le])
  apply writeRange_keepsN 34 _ _ _ (by simp [u32le])
  apply writeRange_keepsN 34 _ _ _ (by simp)
  apply writeRange_keepsN 34 _ _ _ (by simp)
  exact h

/-- Serializing the fixed reference precise date preserves the length of its
17-byte region (every ASCII field renders at its exact width). -/
theorem refDate_keeps (region : List Nat) (h : region.length = 17) :
    (refDate.serialize_unchecked region).length = 17 := by
  unfold Isofs.DigitsDate.serialize_unchecked refDate
  apply writeRange_keepsN 17 _ _ _ (by decide)
  apply writeRange_keepsN 17 _ _ _ (by decide)
  apply writeRange_keepsN 17 _ _ _ (by decide)
  apply writeRange_keepsN 17 _ _ _ (by decide)
  apply writeRange_keepsN 17 _ _ _ (by decide)
  apply writeRange_keepsN 17 _ _ _ (by decide)
  apply writeRange_keepsN 17 _ _ _ (by decide)
  apply writeRange_keepsN 17 _ _ _ (by decide)
  exact h

/-- Writing at offset 0 into an empty sink stores exactly the written bytes. -/
theorem overwriteAt_nil_zero (src : List Nat) : overwriteAt [] 0 src = src := by
  simp [overwriteAt]

/-- The C1 writer: `sector_size = 2048`, `Standard::Iso9660`, one primary
volume `VOL` with an empty filesystem. -/
def c1Writer : Isofs.IsoWriter :=
  { options := { sector_size := 2048, standard := .iso9660 }
    volumes := [.primary
      { volume_id := [86, 79, 76], publisher := none, preparer := none
        filesystem := { root := { extent_lba := none, entries := [] } } }] }

/-- The image produced by finalizing `c1Writer` into an empty sink (under the
fixed reference clock). -/
def c1Image : Sink := c1Writer.write refDate refNumDate { pos := 0, data := [] }

/-- The root directory after LBA assignment in the C1 run: the allocator
starts at `volumes.len() + 16 = 17` and an empty record set occupies zero
sectors. -/
def c1Root : Isofs.RootDirectory := { extent_lba := some 17, entries := [] }

/-- The primary volume descriptor the C1 run serializes. -/
def c1desc : Isofs.PrimaryVolumeDescriptor :=
  Isofs.PrimaryVolume.descriptor
    { volume_id := [86, 79, 76], publisher := none, preparer := none
      filesystem := { root := c1Root } }
    { sector_size := 2048, standard_identifier := .cd001 }
    refDate refNumDate

set_option maxRecDepth 4000 in
/-- Claim C1, refuted on the code: finalizing the minimal writer
(`sector_size = 2048`, one primary volume `VOL`, no files) produces a
2048-byte image whose byte 0 is the PVD tag 1 and whose bytes 1..6 are
`CD001` — the primary volume descriptor lands at byte offset 0, so bytes
[0, 16*2048) are not all zero, no system area is emitted, and the image ends
long before the claimed PVD at sector 16 or terminator at sector 17. -/
theorem minimal_image_pvd_written_at_sector_zero :
    c1Image.data.getD 0 99 = 1 ∧
    listSlice c1Image.data 1 6 = [67, 68, 48, 48, 49] ∧
    c1Image.data.length = 2048 := by
  have hImage : c1Image.data = overwriteAt [] 0
      (c1desc.serialize_unchecked (List.replicate 2048 0)) := by
    unfold c1Image c1Writer Isofs.IsoWriter.write c1desc c1Root
    simp only [Isofs.volumesLoop, Isofs.RootDirectory.assign_extent_lbas,
      Isofs.assignEntries, Isofs.write_directory_entry, Isofs.descriptorsLoop,
      Isofs.writeEntries, Isofs.SectorWriter.new, Sink.seek, Sink.writeAll,
      Isofs.LbaAllocator.new, Isofs.LbaAllocator.allocate,
      Isofs.Standard.standard_identifier, List.map_nil, List.sum_nil,
      List.length_cons, List.length_nil]
  refine ⟨?_, ?_, ?_⟩
  · rw [hImage, overwriteAt_nil_zero]
    decide
  · rw [hImage, overwriteAt_nil_zero]
    decide
  · rw [hImage, overwriteAt_nil_zero]
    unfold c1desc Isofs.PrimaryVolume.descriptor
      Isofs.PrimaryVolumeDescriptor.serialize_unchecked
    simp only [fillRange]
    repeat
      first
      | rw [List.length_replicate]
      | apply onRange_keepsN 2048 _ 156 190 _ (by decide) (by decide)
          (fun region hr => rootRecord_keeps _ region hr)
      | apply onRange_keepsN 2048 _ 813 830 _ (by decide) (by decide)
          (fun region hr => refDate_keeps region hr)
      | apply onRange_keepsN 2048 _ 830 847 _ (by decide) (by decide)
          (fun region hr => refDate_keeps region hr)
      | apply onRange_keepsN 2048 _ 847 864 _ (by decide) (by decide)
          (fun region hr => refDate_keeps region hr)
      | apply onRange_keepsN 2048 _ 864 881 _ (by decide) (by decide)
          (fun region hr => refDate_keeps region hr)
      | apply writeRange_keepsN 2048 _ _ _ (by
          simp only [Isofs.fromBytesTruncated, Isofs.StandardIdentifier.as_bytes,
            u32le, u32be, u16le, u16be,
            List.length_reverse, List.length_append, List.length_take,
            List.length_replicate, List.length_cons, List.length_nil]
          omega)
